import Mathlib

/-!
Verification of the NUT libusb-1.0 USB communication subdriver
(`drivers/nut_libusb.c`) against its natural-language specification.

The C code is shallowly embedded: each function's control flow is
translated into a pure Lean function, with the libusb transport calls
replaced by oracle parameters carrying the status codes and data the
transport would return.  Machine integers are modelled as `Int`/`Nat`
(the C values involved never overflow their types along the modelled
paths; byte reads from `unsigned char` buffers are reduced `% 256`).
-/

namespace NutLibusb

/-! ## libusb status codes (from libusb.h, as used by the driver) -/

def LIBUSB_SUCCESS : Int := 0
def LIBUSB_ERROR_IO : Int := -1
def LIBUSB_ERROR_INVALID_PARAM : Int := -2
def LIBUSB_ERROR_ACCESS : Int := -3
def LIBUSB_ERROR_NO_DEVICE : Int := -4
def LIBUSB_ERROR_NOT_FOUND : Int := -5
def LIBUSB_ERROR_BUSY : Int := -6
def LIBUSB_ERROR_TIMEOUT : Int := -7
def LIBUSB_ERROR_OVERFLOW : Int := -8
def LIBUSB_ERROR_PIPE : Int := -9
def LIBUSB_ERROR_INTERRUPTED : Int := -10
def LIBUSB_ERROR_NO_MEM : Int := -11
def LIBUSB_ERROR_NOT_SUPPORTED : Int := -12
def LIBUSB_ERROR_OTHER : Int := -99

/-- HID class descriptor type tag (`LIBUSB_DT_HID`, 0x21). -/
def LIBUSB_DT_HID : Nat := 0x21

/-- Constant `MAX_REPORT_SIZE` from `nut_libusb.c` line 45: capacity of `rdbuf`. -/
def MAX_REPORT_SIZE : Nat := 0x1800

/-! ## Error classifier: `nut_usb_logerror` (lines 480-508)

The C function logs and returns its argument unchanged.  We model the
logging side effect as a `LogChannel` value: `silent` for no output,
`debugLow` for `upsdebugx(2, ...)` (shown only at debug verbosity 2+),
`debugAlways` for `upslogx(LOG_DEBUG, ...)` (the always-on debug log). -/

inductive LogChannel
  | silent
  | debugLow
  | debugAlways
deriving DecidableEq, Repr

/-- The codes of the first `switch` group in `nut_usb_logerror`
(lines 489-493): invalid parameter, interrupted, out of memory,
timeout, overflow. -/
def lowSeverityCodes : List Int :=
  [LIBUSB_ERROR_INVALID_PARAM, LIBUSB_ERROR_INTERRUPTED, LIBUSB_ERROR_NO_MEM,
   LIBUSB_ERROR_TIMEOUT, LIBUSB_ERROR_OVERFLOW]

/-- The codes of the second `switch` group (lines 496-503): busy,
no-device, access, I/O, not-found, pipe, not-supported, other.  The C
`default` label folds every remaining negative code into this group
as well. -/
def alwaysOnCodes : List Int :=
  [LIBUSB_ERROR_BUSY, LIBUSB_ERROR_NO_DEVICE, LIBUSB_ERROR_ACCESS, LIBUSB_ERROR_IO,
   LIBUSB_ERROR_NOT_FOUND, LIBUSB_ERROR_PIPE, LIBUSB_ERROR_NOT_SUPPORTED, LIBUSB_ERROR_OTHER]

/-- Function `nut_usb_logerror` (lines 480-508): returns `ret` unchanged, with
the log channel the message was routed to. -/
def nut_usb_logerror (ret : Int) : Int × LogChannel :=
  if 0 ≤ ret then (ret, LogChannel.silent)
  else if lowSeverityCodes.contains ret then (ret, LogChannel.debugLow)
  else (ret, LogChannel.debugAlways)

/-! ## Transfer primitives (lines 511-593)

The device handle is modelled as `Option Nat` (`none` = NULL pointer).
The result of the underlying libusb transfer is an oracle parameter
`transferRet`. -/

/-- Function `nut_libusb_get_report` (lines 511-533).  `transferRet` stands for
the result of the `libusb_control_transfer` HID_REPORT_GET request.
Result: the value returned to the caller and the log channel used. -/
def nut_libusb_get_report (udev : Option Nat) (ReportId : Int) (ReportSize : Int)
    (transferRet : Int) : Int × LogChannel :=
  match udev with
  | none => (LIBUSB_ERROR_INVALID_PARAM, LogChannel.silent)
  | some _ =>
    if transferRet = LIBUSB_ERROR_PIPE then (0, LogChannel.silent)
    else nut_usb_logerror transferRet

/-- Function `nut_libusb_set_report` (lines 536-556), symmetric outbound request
with the same stall handling. -/
def nut_libusb_set_report (udev : Option Nat) (ReportId : Int) (ReportSize : Int)
    (transferRet : Int) : Int × LogChannel :=
  match udev with
  | none => (LIBUSB_ERROR_INVALID_PARAM, LogChannel.silent)
  | some _ =>
    if transferRet = LIBUSB_ERROR_PIPE then (0, LogChannel.silent)
    else nut_usb_logerror transferRet

/-- Function `nut_libusb_get_string` (lines 559-570).  `transferRet` stands for
the `libusb_get_string_descriptor_ascii` result. -/
def nut_libusb_get_string (udev : Option Nat) (StringIdx : Int)
    (transferRet : Int) : Int × LogChannel :=
  match udev with
  | none => (LIBUSB_ERROR_INVALID_PARAM, LogChannel.silent)
  | some _ => nut_usb_logerror transferRet

/-- Function `nut_libusb_get_interrupt` (lines 573-593).  `transferRet` is the
`libusb_interrupt_transfer` status, `transferred` the transferred byte
count it reported, `clearHaltRet` the status `libusb_clear_halt` would
return on endpoint 0x81.  Result components: value returned to the
caller, the endpoint on which a halt was cleared (if any), and the log
channel used. -/
def nut_libusb_get_interrupt (udev : Option Nat) (transferRet transferred clearHaltRet : Int) :
    Int × Option Nat × LogChannel :=
  match udev with
  | none => (LIBUSB_ERROR_INVALID_PARAM, none, LogChannel.silent)
  | some _ =>
    if transferRet = LIBUSB_SUCCESS then (transferred, none, LogChannel.silent)
    else if transferRet = LIBUSB_ERROR_PIPE then
      ((nut_usb_logerror clearHaltRet).1, some 0x81, (nut_usb_logerror clearHaltRet).2)
    else ((nut_usb_logerror transferRet).1, none, (nut_usb_logerror transferRet).2)

/-! ## Interface acquisition: `nut_usb_claim_interface` (lines 83-137)

We model the `HAVE_LIBUSB_DETACH_KERNEL_DRIVER` (explicit detach) path,
lines 111-134.  The auto-detach preamble (lines 91-109) only logs and
never alters the returned value; it is omitted.  `claimRet i` is the
status the `i`-th `libusb_claim_interface` call would return (0-based),
`detachRet i` the status of the detach attempted after the `i`-th
failing claim.  The result pairs the returned status with the number
of detach-and-retry cycles performed. -/

def claimWithRetries (claimRet detachRet : Nat → Int) : Nat → Nat → Int × Nat
  | attempt, 0 =>
    if claimRet attempt = LIBUSB_SUCCESS then (LIBUSB_SUCCESS, 0)
    else (claimRet attempt, 0)
  | attempt, r + 1 =>
    if claimRet attempt = LIBUSB_SUCCESS then (LIBUSB_SUCCESS, 0)
    else
      let rec_ := claimWithRetries claimRet detachRet (attempt + 1) r
      (rec_.1, rec_.2 + 1)

/-- Function `nut_usb_claim_interface`, explicit-detach path: `retries = 3`. -/
def nut_usb_claim_interface (claimRet detachRet : Nat → Int) : Int × Nat :=
  claimWithRetries claimRet detachRet 0 3

/-! ## Device identity record: `USBDevice_t` as used by `nut_libusb_open`

String fields are `Option String` (`none` = NULL). -/

structure USBDevice where
  Vendor : Option String
  Product : Option String
  Serial : Option String
  Bus : Option String
  VendorID : Nat
  ProductID : Nat
  bcdDevice : Nat
deriving DecidableEq, Repr

/-- The all-NULL/zero record produced by `memset(curDevice, 0, ...)`. -/
def emptyDevice : USBDevice :=
  { Vendor := none, Product := none, Serial := none, Bus := none,
    VendorID := 0, ProductID := 0, bcdDevice := 0 }

/-- Lines 263-267: `free` the four string fields and `memset` the whole
record to zero.  `free` leaves the struct bytes untouched; the memset
overwrites every field. -/
def clearDevice (prev : USBDevice) : USBDevice :=
  { prev with Vendor := none, Product := none, Serial := none, Bus := none,
              VendorID := 0, ProductID := 0, bcdDevice := 0 }

/-- Line 272: `sprintf(curDevice->Bus, "%03d", bus)`; `bus` is a
`uint8_t`, so three digits always suffice. -/
def formatBus (bus : Nat) : String :=
  if bus < 10 then "00" ++ toString bus
  else if bus < 100 then "0" ++ toString bus
  else toString bus

/-! ## Per-candidate oracle data

One `Candidate` packages everything the libusb transport would report
for one device of the enumerated list during `nut_libusb_open`. -/

structure Candidate where
  /-- an arbitrary tag standing for the `libusb_device_handle` pointer
  `libusb_open` would produce for this device -/
  handle : Nat
  /-- whether `libusb_get_device_descriptor` succeeded (line 243) -/
  descOk : Bool
  /-- whether `libusb_open` succeeded (line 250) -/
  openOk : Bool
  idVendor : Nat
  idProduct : Nat
  bcdDev : Nat
  busNum : Nat
  /-- Manufacturer string: `some s` when `iManufacturer` is non-zero and
  the string fetch returned positive and `strdup` succeeded (lines 277-281) -/
  vendorStr : Option String
  productStr : Option String
  serialStr : Option String
  /-- some allocation (`malloc`/`strdup`) fails while populating the
  record (`goto oom_error`) -/
  oom : Bool
  /-- whether `nut_usb_claim_interface` returned `LIBUSB_SUCCESS` (line 320) -/
  claimOk : Bool
  /-- result of the method-1 `libusb_control_transfer` (line 346) -/
  m1ret : Int
  /-- contents of `buf` after the method-1 transfer -/
  m1buf : List Nat
  /-- whether `libusb_get_config_descriptor` succeeded (line 374) -/
  confOk : Bool
  /-- the first interface/altsetting's `extra` byte region -/
  extra : List Nat
  /-- result of the report-descriptor `libusb_control_transfer` (line 428) -/
  fetchRet : Int
  /-- result of the caller-supplied acceptance callback (line 443) -/
  callbackRet : Int
deriving DecidableEq, Repr

/-- Lines 263-293: free and zero the record, then repopulate it from
the current candidate's descriptor and strings. -/
def populateDevice (c : Candidate) (prev : USBDevice) : USBDevice :=
  let d := clearDevice prev
  { d with Bus := some (formatBus c.busNum),
           VendorID := c.idVendor, ProductID := c.idProduct, bcdDevice := c.bcdDev,
           Vendor := c.vendorStr, Product := c.productStr, Serial := c.serialStr }

/-! ## Matcher chain (lines 140-145, 304-316) -/

/-- The C function `matches` (lines 140-145): a NULL matcher reports a match,
otherwise the node's `match_function` decides.  A matcher node is
abstracted as its `match_function` partially applied to its
`privdata`, i.e. a function `USBDevice → Int`. -/
def matchesNode (m : Option (USBDevice → Int)) (device : USBDevice) : Int :=
  match m with
  | none => 1
  | some f => f device

inductive ChainOutcome
  | pass
  | skip
  | fatal
deriving DecidableEq, Repr

/-- The matcher loop of lines 304-316: walk the chain in list order;
`0` rejects the candidate (skip), `-1` is a hard error (fatal abort of
the enumeration), `-2` is an unspecified matcher error (skip), anything
else continues with the next node. -/
def evalChain (chain : List (USBDevice → Int)) (device : USBDevice) : ChainOutcome :=
  match chain with
  | [] => ChainOutcome.pass
  | f :: rest =>
    let r := matchesNode (some f) device
    if r = 0 then ChainOutcome.skip
    else if r = -1 then ChainOutcome.fatal
    else if r = -2 then ChainOutcome.skip
    else evalChain rest device

/-! ## Descriptor discovery (lines 337-441) -/

/-- Read byte `i` of an `unsigned char` buffer (out-of-range reads do
not occur on the modelled paths; they default to 0). -/
def byteAt (l : List Nat) (i : Nat) : Nat := l.getD i 0 % 256

/-- Line 338-341: the HID descriptor sub-index is 1 for Eaton vendor
0x463 at device release 0x0202, else 0. -/
def hid_desc_index (vid bcd : Nat) : Nat :=
  if vid = 0x463 ∧ bcd = 0x0202 then 1 else 0

/-- Method 1 (lines 346-358): on a transfer error or a reply shorter
than the 9-byte HID descriptor header, no length; otherwise the
little-endian 16-bit report length at header bytes 7-8. -/
def method1_length (m1ret : Int) (buf : List Nat) : Option Nat :=
  if m1ret < 0 then none
  else if m1ret < 9 then none
  else some (byteAt buf 7 ||| (byteAt buf 8 <<< 8))

/-- The gating condition of line 368: method 2 is skipped exactly when
`VendorID != 0x463 && bcdDevice != 0x0202`. -/
def method2_skipped (vid bcd : Nat) : Bool :=
  decide (vid ≠ 0x463) && decide (bcd ≠ 0x0202)

/-- The scan loop of lines 381-400 over the interface descriptor's
`extra` bytes: starting at `i = 0`, while `i <= extra_length - 9`, a
sub-descriptor whose length byte is ≥ 9 and whose type byte is
`LIBUSB_DT_HID` yields the 16-bit length at its bytes 7-8; otherwise
advance by the length byte (`i += extra[i]`).  The `fuel` argument
bounds the recursion; when started at `extra.length + 1` it only runs
out on inputs where a zero length byte makes the C loop spin forever
without an answer (the model then reports no length). -/
def method2_scan (extra : List Nat) : Nat → Nat → Option Nat
  | _, 0 => none
  | i, fuel + 1 =>
    if i + 9 > extra.length then none
    else if byteAt extra i < 9 then method2_scan extra (i + byteAt extra i) fuel
    else if byteAt extra (i + 1) ≠ LIBUSB_DT_HID then method2_scan extra (i + byteAt extra i) fuel
    else some (byteAt extra (i + 7) ||| (byteAt extra (i + 8) <<< 8))

/-- Method 2 (lines 362-406): gated by `method2_skipped`; requires the
configuration descriptor fetch to succeed; then scans the extra bytes. -/
def method2_result (vid bcd : Nat) (confOk : Bool) (extra : List Nat) : Option Nat :=
  if method2_skipped vid bcd then none
  else if confOk = false then none
  else method2_scan extra 0 (extra.length + 1)

/-- Reconciliation (lines 408-421): neither method succeeded rejects
the candidate; otherwise `rdlen = got_rdlen2 ? rdlen2 : rdlen1`. -/
def reconcile (r1 r2 : Option Nat) : Option Nat :=
  match r1, r2 with
  | none, none => none
  | _, some l2 => some l2
  | some l1, none => some l1

/-- Outcome of descriptor discovery for one candidate:
`fetchReq` is the length passed to the report-descriptor control
transfer (`none` when no fetch was issued), `rdlen` the final accepted
length handed to the callback (`none` when the candidate is rejected
before the callback), `bytesWritten` the number of bytes the transfer
placed into `rdbuf`. -/
structure DiscoveryResult where
  fetchReq : Option Nat
  rdlen : Option Nat
  bytesWritten : Nat
deriving DecidableEq, Repr

/-- Lines 408-441: reconcile the two lengths, reject when the result
exceeds `MAX_REPORT_SIZE` (`rdlen > sizeof(rdbuf)`, line 423), fetch
the report descriptor, reject on a transfer error, truncate the length
on a short transfer (lines 437-441). -/
def discoveryStep (c : Candidate) : DiscoveryResult :=
  match reconcile (method1_length c.m1ret c.m1buf)
                  (method2_result c.idVendor c.bcdDev c.confOk c.extra) with
  | none => { fetchReq := none, rdlen := none, bytesWritten := 0 }
  | some rdlen =>
    if MAX_REPORT_SIZE < rdlen then { fetchReq := none, rdlen := none, bytesWritten := 0 }
    else if c.fetchRet < 0 then { fetchReq := some rdlen, rdlen := none, bytesWritten := 0 }
    else
      let actual := if c.fetchRet < (rdlen : Int) then c.fetchRet.toNat else rdlen
      { fetchReq := some rdlen, rdlen := some actual, bytesWritten := actual }

/-! ## The enumeration loop of `nut_libusb_open` (lines 188-476) -/

inductive OpenCode
  | success
  | notFound
  | fatalAbort
deriving DecidableEq, Repr

/-- Observable outcome of `nut_libusb_open`: the return code, the final
contents of the caller's `*udevp` pointer (`none` = NULL), and the
handles closed by `libusb_close` during the scan, in order. -/
structure OpenOutcome where
  code : OpenCode
  udevp : Option Nat
  closed : List Nat
deriving DecidableEq, Repr

/-- The candidate loop of `nut_libusb_open` (lines 210-475).
Arguments after the chain and the `callback != NULL` flag: remaining
candidate list, current `*udevp` contents, handles closed so far, and
the current contents of the caller's `curDevice` record.  Mirrors the
source: a device-descriptor or open failure `continue`s without a
handle; out-of-memory, a hard matcher error and a claim failure abort
fatally; a matcher reject, a discovery reject and a callback reject
`goto next_device`, which closes the handle; a match with no callback,
or an accepted callback, return success; an exhausted list stores NULL
in `*udevp` and reports not-found (lines 470-475). -/
def openEnum (chain : List (USBDevice → Int)) (hasCallback : Bool) :
    List Candidate → Option Nat → List Nat → USBDevice → OpenOutcome
  | [], _, closedAcc, _ =>
    { code := OpenCode.notFound, udevp := none, closed := closedAcc }
  | c :: rest, udevp, closedAcc, prev =>
    if c.descOk = false then openEnum chain hasCallback rest udevp closedAcc prev
    else if c.openOk = false then openEnum chain hasCallback rest udevp closedAcc prev
    else if c.oom then { code := OpenCode.fatalAbort, udevp := some c.handle, closed := closedAcc }
    else
      let d := populateDevice c prev
      match evalChain chain d with
      | ChainOutcome.skip =>
        openEnum chain hasCallback rest (some c.handle) (closedAcc ++ [c.handle]) d
      | ChainOutcome.fatal =>
        { code := OpenCode.fatalAbort, udevp := some c.handle, closed := closedAcc }
      | ChainOutcome.pass =>
        if c.claimOk = false then
          { code := OpenCode.fatalAbort, udevp := some c.handle, closed := closedAcc }
        else if hasCallback = false then
          { code := OpenCode.success, udevp := some c.handle, closed := closedAcc }
        else
          match (discoveryStep c).rdlen with
          | none => openEnum chain hasCallback rest (some c.handle) (closedAcc ++ [c.handle]) d
          | some _ =>
            if c.callbackRet < 1 then
              openEnum chain hasCallback rest (some c.handle) (closedAcc ++ [c.handle]) d
            else { code := OpenCode.success, udevp := some c.handle, closed := closedAcc }

/-- A candidate whose Method 1 reports the oversize length 0x1900 =
6400 and whose Method 2 is skipped (vendor/revision both differ from
the special case). -/
def oversizeCand : Candidate :=
  { handle := 7, descOk := true, openOk := true, idVendor := 1, idProduct := 2, bcdDev := 1,
    busNum := 1, vendorStr := none, productStr := none, serialStr := none, oom := false,
    claimOk := true, m1ret := 9, m1buf := [9, 0x21, 0, 0, 0, 0, 0, 0, 0x19], confOk := true,
    extra := [], fetchRet := 0, callbackRet := 1 }

/-- A candidate that is opened and then rejected: neither discovery
method yields a length (Method 1's transfer fails, Method 2 is
skipped). -/
def rejectedCand : Candidate :=
  { handle := 42, descOk := true, openOk := true, idVendor := 1, idProduct := 2, bcdDev := 1,
    busNum := 3, vendorStr := none, productStr := none, serialStr := none, oom := false,
    claimOk := true, m1ret := -1, m1buf := [], confOk := true,
    extra := [], fetchRet := 0, callbackRet := 1 }

/-! ## Helper lemmas -/

theorem nut_usb_logerror_fst (ret : Int) : (nut_usb_logerror ret).1 = ret := by
  unfold nut_usb_logerror
  split
  · rfl
  · split <;> rfl

theorem claimWithRetries_detach_le (claimRet detachRet : Nat → Int) :
    ∀ r attempt, (claimWithRetries claimRet detachRet attempt r).2 ≤ r := by
  intro r
  induction r with
  | zero =>
    intro attempt
    unfold claimWithRetries
    split <;> simp
  | succ n ih =>
    intro attempt
    unfold claimWithRetries
    split
    · simp
    · simpa using ih (attempt + 1)

theorem claimWithRetries_all_fail (claimRet detachRet : Nat → Int) :
    ∀ r attempt, (∀ i, i ≤ attempt + r → claimRet i ≠ LIBUSB_SUCCESS) →
      claimWithRetries claimRet detachRet attempt r = (claimRet (attempt + r), r) := by
  intro r
  induction r with
  | zero =>
    intro attempt h
    unfold claimWithRetries
    rw [if_neg (h attempt (by omega))]
    simp
  | succ n ih =>
    intro attempt h
    unfold claimWithRetries
    rw [if_neg (h attempt (by omega))]
    have h2 : ∀ i, i ≤ (attempt + 1) + n → claimRet i ≠ LIBUSB_SUCCESS := by
      intro i hi
      exact h i (by omega)
    simp only [ih (attempt + 1) h2]
    have : attempt + 1 + n = attempt + (n + 1) := by omega
    rw [this]

theorem claimWithRetries_detach_indep (claimRet d1 d2 : Nat → Int) :
    ∀ r attempt, claimWithRetries claimRet d1 attempt r = claimWithRetries claimRet d2 attempt r := by
  intro r
  induction r with
  | zero => intro attempt; unfold claimWithRetries; rfl
  | succ n ih =>
    intro attempt
    unfold claimWithRetries
    split
    · rfl
    · simp only [ih (attempt + 1)]

theorem evalChain_cons (f : USBDevice → Int) (rest : List (USBDevice → Int)) (d : USBDevice) :
    evalChain (f :: rest) d =
      if f d = 0 then ChainOutcome.skip
      else if f d = -1 then ChainOutcome.fatal
      else if f d = -2 then ChainOutcome.skip
      else evalChain rest d := rfl

theorem openEnum_skip_step (chain : List (USBDevice → Int)) (hasCb : Bool)
    (c : Candidate) (rest : List Candidate) (udevp : Option Nat) (closedAcc : List Nat)
    (prev : USBDevice)
    (h1 : c.descOk = true) (h2 : c.openOk = true) (h3 : c.oom = false)
    (h4 : evalChain chain (populateDevice c prev) = ChainOutcome.skip) :
    openEnum chain hasCb (c :: rest) udevp closedAcc prev
      = openEnum chain hasCb rest (some c.handle) (closedAcc ++ [c.handle])
          (populateDevice c prev) := by
  simp [openEnum, h1, h2, h3, h4]

theorem openEnum_fatal_matcher (chain : List (USBDevice → Int)) (hasCb : Bool)
    (c : Candidate) (rest : List Candidate) (udevp : Option Nat) (closedAcc : List Nat)
    (prev : USBDevice)
    (h1 : c.descOk = true) (h2 : c.openOk = true) (h3 : c.oom = false)
    (h4 : evalChain chain (populateDevice c prev) = ChainOutcome.fatal) :
    openEnum chain hasCb (c :: rest) udevp closedAcc prev
      = { code := OpenCode.fatalAbort, udevp := some c.handle, closed := closedAcc } := by
  simp [openEnum, h1, h2, h3, h4]

theorem openEnum_reject_rdlen_none (chain : List (USBDevice → Int))
    (c : Candidate) (rest : List Candidate) (udevp : Option Nat) (closedAcc : List Nat)
    (prev : USBDevice)
    (h1 : c.descOk = true) (h2 : c.openOk = true) (h3 : c.oom = false)
    (h4 : evalChain chain (populateDevice c prev) = ChainOutcome.pass)
    (h5 : c.claimOk = true) (h6 : (discoveryStep c).rdlen = none) :
    openEnum chain true (c :: rest) udevp closedAcc prev
      = openEnum chain true rest (some c.handle) (closedAcc ++ [c.handle])
          (populateDevice c prev) := by
  simp [openEnum, h1, h2, h3, h4, h5, h6]

theorem populateDevice_prev_indep (c : Candidate) (p1 p2 : USBDevice) :
    populateDevice c p1 = populateDevice c p2 := rfl

theorem openEnum_prev_indep (chain : List (USBDevice → Int)) (hasCb : Bool) :
    ∀ (cs : List Candidate) (udevp : Option Nat) (closedAcc : List Nat) (p1 p2 : USBDevice),
      openEnum chain hasCb cs udevp closedAcc p1 = openEnum chain hasCb cs udevp closedAcc p2 := by
  intro cs
  induction cs with
  | nil => intro _ _ _ _; rfl
  | cons c rest ih =>
    intro udevp closedAcc p1 p2
    simp only [openEnum]
    rw [populateDevice_prev_indep c p1 p2]
    by_cases hd : c.descOk = false
    · simp only [if_pos hd]; exact ih udevp closedAcc p1 p2
    · simp only [if_neg hd]
      by_cases ho : c.openOk = false
      · simp only [if_pos ho]; exact ih udevp closedAcc p1 p2
      · simp only [if_neg ho]

theorem openEnum_notFound_shape (chain : List (USBDevice → Int)) (hasCb : Bool) :
    ∀ (cs : List Candidate) (udevp : Option Nat) (closedAcc : List Nat) (prev : USBDevice),
      (openEnum chain hasCb cs udevp closedAcc prev).code = OpenCode.notFound →
      (openEnum chain hasCb cs udevp closedAcc prev).udevp = none
      ∧ (openEnum chain hasCb cs udevp closedAcc prev).closed
          = closedAcc ++ (cs.filter (fun c => c.descOk && c.openOk)).map Candidate.handle := by
  intro cs
  induction cs with
  | nil =>
    intro udevp closedAcc prev _
    simp [openEnum]
  | cons c rest ih =>
    intro udevp closedAcc prev h
    by_cases hd : c.descOk = false
    · have he : openEnum chain hasCb (c :: rest) udevp closedAcc prev
          = openEnum chain hasCb rest udevp closedAcc prev := by
        simp [openEnum, hd]
      rw [he] at h ⊢
      have := ih udevp closedAcc prev h
      simpa [List.filter, hd] using this
    · by_cases ho : c.openOk = false
      · have he : openEnum chain hasCb (c :: rest) udevp closedAcc prev
            = openEnum chain hasCb rest udevp closedAcc prev := by
          simp [openEnum, hd, ho]
        rw [he] at h ⊢
        have := ih udevp closedAcc prev h
        simpa [List.filter, ho, by simpa using hd] using this
      · have hd1 : c.descOk = true := by simpa using hd
        have ho1 : c.openOk = true := by simpa using ho
        by_cases hm : c.oom = true
        · exfalso
          have he : openEnum chain hasCb (c :: rest) udevp closedAcc prev
              = { code := OpenCode.fatalAbort, udevp := some c.handle, closed := closedAcc } := by
            simp [openEnum, hd1, ho1, hm]
          rw [he] at h
          exact absurd h (by simp)
        · have hm0 : c.oom = false := by simpa using hm
          rcases hev : evalChain chain (populateDevice c prev) with _ | _ | _
          · -- ChainOutcome.pass
            by_cases hc : c.claimOk = false
            · exfalso
              have he : openEnum chain hasCb (c :: rest) udevp closedAcc prev
                  = { code := OpenCode.fatalAbort, udevp := some c.handle, closed := closedAcc } := by
                simp [openEnum, hd1, ho1, hm0, hev, hc]
              rw [he] at h
              exact absurd h (by simp)
            · have hc1 : c.claimOk = true := by simpa using hc
              by_cases hcb : hasCb = false
              · exfalso
                have he : openEnum chain hasCb (c :: rest) udevp closedAcc prev
                    = { code := OpenCode.success, udevp := some c.handle, closed := closedAcc } := by
                  simp [openEnum, hd1, ho1, hm0, hev, hc1, hcb]
                rw [he] at h
                exact absurd h (by simp)
              · have hcb1 : hasCb = true := by simpa using hcb
                rcases hrd : (discoveryStep c).rdlen with _ | len
                · have he : openEnum chain hasCb (c :: rest) udevp closedAcc prev
                      = openEnum chain hasCb rest (some c.handle) (closedAcc ++ [c.handle])
                          (populateDevice c prev) := by
                    simp [openEnum, hd1, ho1, hm0, hev, hc1, hcb1, hrd]
                  rw [he] at h ⊢
                  have := ih (some c.handle) (closedAcc ++ [c.handle]) (populateDevice c prev) h
                  simpa [List.filter, hd1, ho1, List.append_assoc] using this
                · by_cases hcr : c.callbackRet < 1
                  · have he : openEnum chain hasCb (c :: rest) udevp closedAcc prev
                        = openEnum chain hasCb rest (some c.handle) (closedAcc ++ [c.handle])
                            (populateDevice c prev) := by
                      simp [openEnum, hd1, ho1, hm0, hev, hc1, hcb1, hrd, hcr]
                    rw [he] at h ⊢
                    have := ih (some c.handle) (closedAcc ++ [c.handle]) (populateDevice c prev) h
                    simpa [List.filter, hd1, ho1, List.append_assoc] using this
                  · exfalso
                    have he : openEnum chain hasCb (c :: rest) udevp closedAcc prev
                        = { code := OpenCode.success, udevp := some c.handle, closed := closedAcc } := by
                      simp [openEnum, hd1, ho1, hm0, hev, hc1, hcb1, hrd, hcr]
                    rw [he] at h
                    exact absurd h (by simp)
          · -- ChainOutcome.skip
            have he : openEnum chain hasCb (c :: rest) udevp closedAcc prev
                = openEnum chain hasCb rest (some c.handle) (closedAcc ++ [c.handle])
                    (populateDevice c prev) :=
              openEnum_skip_step chain hasCb c rest udevp closedAcc prev hd1 ho1 hm0 hev
            rw [he] at h ⊢
            have := ih (some c.handle) (closedAcc ++ [c.handle]) (populateDevice c prev) h
            simpa [List.filter, hd1, ho1, List.append_assoc] using this
          · -- ChainOutcome.fatal
            exfalso
            have he : openEnum chain hasCb (c :: rest) udevp closedAcc prev
                = { code := OpenCode.fatalAbort, udevp := some c.handle, closed := closedAcc } :=
              openEnum_fatal_matcher chain hasCb c rest udevp closedAcc prev hd1 ho1 hm0 hev
            rw [he] at h
            exact absurd h (by simp)

/-! ## Claim theorems -/

/-- Claim C9: the error classifier `nut_usb_logerror` always returns its
input status unchanged; a negative code of the
parameter/resource/timeout/overflow group is logged on the low-severity
debug channel, a negative code of the
device-availability/permission/I/O/protocol-support group on the
always-on debug channel, and a non-negative (success) code produces no
output. -/
theorem c9_logerror_classification (ret : Int) :
    (nut_usb_logerror ret).1 = ret
    ∧ (0 ≤ ret → (nut_usb_logerror ret).2 = LogChannel.silent)
    ∧ (ret < 0 → ret ∈ lowSeverityCodes → (nut_usb_logerror ret).2 = LogChannel.debugLow)
    ∧ (ret < 0 → ret ∈ alwaysOnCodes → (nut_usb_logerror ret).2 = LogChannel.debugAlways) := by
  refine ⟨nut_usb_logerror_fst ret, ?_, ?_, ?_⟩
  · intro h
    unfold nut_usb_logerror
    rw [if_pos h]
  · intro _ h2
    simp only [lowSeverityCodes, LIBUSB_ERROR_INVALID_PARAM, LIBUSB_ERROR_INTERRUPTED,
      LIBUSB_ERROR_NO_MEM, LIBUSB_ERROR_TIMEOUT, LIBUSB_ERROR_OVERFLOW,
      List.mem_cons, List.not_mem_nil, or_false] at h2
    rcases h2 with rfl | rfl | rfl | rfl | rfl <;> decide
  · intro _ h2
    simp only [alwaysOnCodes, LIBUSB_ERROR_BUSY, LIBUSB_ERROR_NO_DEVICE, LIBUSB_ERROR_ACCESS,
      LIBUSB_ERROR_IO, LIBUSB_ERROR_NOT_FOUND, LIBUSB_ERROR_PIPE, LIBUSB_ERROR_NOT_SUPPORTED,
      LIBUSB_ERROR_OTHER, List.mem_cons, List.not_mem_nil, or_false] at h2
    rcases h2 with rfl | rfl | rfl | rfl | rfl | rfl | rfl | rfl <;> decide

/-- Witness for C9 at the concrete code `LIBUSB_ERROR_NO_DEVICE` = -4. -/
theorem c9_logerror_classification_witness :
    (nut_usb_logerror (-4)).2 = LogChannel.debugAlways :=
  (c9_logerror_classification (-4)).2.2.2 (by decide) (by decide)

/-- Claim C4: on a live handle, a protocol-stall status on get/set
feature report yields the success value 0 with no log output; the stall
code is never propagated to the caller. -/
theorem c4_feature_report_stall (h : Nat) (ReportId ReportSize : Int) :
    nut_libusb_get_report (some h) ReportId ReportSize LIBUSB_ERROR_PIPE
      = (0, LogChannel.silent)
    ∧ nut_libusb_set_report (some h) ReportId ReportSize LIBUSB_ERROR_PIPE
      = (0, LogChannel.silent)
    ∧ 0 ≤ (nut_libusb_get_report (some h) ReportId ReportSize LIBUSB_ERROR_PIPE).1
    ∧ 0 ≤ (nut_libusb_set_report (some h) ReportId ReportSize LIBUSB_ERROR_PIPE).1 := by
  exact ⟨rfl, rfl, le_refl 0, le_refl 0⟩

/-- Claim C3: on a live handle, when the interrupt transfer reports a
protocol stall, the halt is cleared on endpoint 0x81 and the status of
the clear-halt call is passed through the error classifier and returned
to the caller. -/
theorem c3_interrupt_stall_recovery (h : Nat) (transferred clearHaltRet : Int) :
    nut_libusb_get_interrupt (some h) LIBUSB_ERROR_PIPE transferred clearHaltRet
      = ((nut_usb_logerror clearHaltRet).1, some 0x81, (nut_usb_logerror clearHaltRet).2)
    ∧ (nut_libusb_get_interrupt (some h) LIBUSB_ERROR_PIPE transferred clearHaltRet).1
      = clearHaltRet := by
  have he : nut_libusb_get_interrupt (some h) LIBUSB_ERROR_PIPE transferred clearHaltRet
      = ((nut_usb_logerror clearHaltRet).1, some 0x81, (nut_usb_logerror clearHaltRet).2) := by
    simp [nut_libusb_get_interrupt, LIBUSB_ERROR_PIPE, LIBUSB_SUCCESS]
  exact ⟨he, by rw [he]; exact nut_usb_logerror_fst clearHaltRet⟩

/-- Claim C5: on the explicit-detach path, `nut_usb_claim_interface`
performs at most 3 detach-and-retry cycles after a failing claim
attempt; when every claim attempt fails it returns the status of the
last (fourth) failing claim attempt, and the result never depends on
the detach statuses. -/
theorem c5_claim_retry_bound (claimRet detachRet : Nat → Int) :
    (nut_usb_claim_interface claimRet detachRet).2 ≤ 3
    ∧ ((∀ i, i ≤ 3 → claimRet i ≠ LIBUSB_SUCCESS) →
        nut_usb_claim_interface claimRet detachRet = (claimRet 3, 3))
    ∧ (∀ detachRet2, nut_usb_claim_interface claimRet detachRet
        = nut_usb_claim_interface claimRet detachRet2) := by
  refine ⟨claimWithRetries_detach_le claimRet detachRet 3 0, ?_, ?_⟩
  · intro hfail
    have := claimWithRetries_all_fail claimRet detachRet 3 0
      (by intro i hi; exact hfail i (by omega))
    simpa [nut_usb_claim_interface] using this
  · intro d2
    exact claimWithRetries_detach_indep claimRet detachRet d2 3 0

/-- Witness for C5: every claim attempt returns `LIBUSB_ERROR_BUSY`;
the call performs 3 detach cycles and surfaces the busy status. -/
theorem c5_claim_retry_bound_witness :
    nut_usb_claim_interface (fun _ => LIBUSB_ERROR_BUSY) (fun _ => LIBUSB_SUCCESS)
      = (LIBUSB_ERROR_BUSY, 3) :=
  (c5_claim_retry_bound (fun _ => LIBUSB_ERROR_BUSY) (fun _ => LIBUSB_SUCCESS)).2.1
    (fun _ _ => by decide)

theorem evalChain_pass_iff (d : USBDevice) :
    ∀ chain : List (USBDevice → Int),
      (∀ f ∈ chain, f d = 1 ∨ f d = 0 ∨ f d = -1 ∨ f d = -2) →
      (evalChain chain d = ChainOutcome.pass ↔ ∀ f ∈ chain, f d = 1) := by
  intro chain
  induction chain with
  | nil => intro _; simp [evalChain]
  | cons f rest ih =>
    intro hval
    have hf := hval f (List.mem_cons_self f rest)
    have hrest : ∀ g ∈ rest, g d = 1 ∨ g d = 0 ∨ g d = -1 ∨ g d = -2 :=
      fun g hg => hval g (List.mem_cons_of_mem f hg)
    rw [evalChain_cons]
    rcases hf with h1 | h0 | hm1 | hm2
    · rw [h1]
      norm_num
      rw [ih hrest]
      simp [List.forall_mem_cons, h1]
    · rw [h0]
      norm_num
      refine iff_of_false (by simp) ?_
      rintro ⟨hf1, -⟩
      rw [h0] at hf1
      norm_num at hf1
    · rw [hm1]
      norm_num
      refine iff_of_false (by simp) ?_
      rintro ⟨hf1, -⟩
      rw [hm1] at hf1
      norm_num at hf1
    · rw [hm2]
      norm_num
      refine iff_of_false (by simp) ?_
      rintro ⟨hf1, -⟩
      rw [hm2] at hf1
      norm_num at hf1

/-- Claim C7: with matcher results drawn from the documented set
(1 = match, 0 = no-match, -1 = hard error, -2 = unspecified error), a
candidate passes the chain iff every node reports a match; nodes are
evaluated in list order and the first node not reporting a match
decides the outcome without the remaining nodes being consulted; a
hard error makes the whole enumeration abort fatally instead of
skipping to the next device. -/
theorem c7_matcher_chain (chain : List (USBDevice → Int)) (d : USBDevice)
    (hval : ∀ f ∈ chain, f d = 1 ∨ f d = 0 ∨ f d = -1 ∨ f d = -2) :
    (evalChain chain d = ChainOutcome.pass ↔ ∀ f ∈ chain, f d = 1)
    ∧ (∀ f rest, chain = f :: rest → f d ≠ 1 → evalChain chain d = evalChain [f] d)
    ∧ (∀ f rest, chain = f :: rest → f d = -1 → evalChain chain d = ChainOutcome.fatal)
    ∧ (∀ (hasCb : Bool) (c : Candidate) (cs : List Candidate) (udevp : Option Nat)
        (closedAcc : List Nat) (prev : USBDevice),
        c.descOk = true → c.openOk = true → c.oom = false →
        evalChain chain (populateDevice c prev) = ChainOutcome.fatal →
        openEnum chain hasCb (c :: cs) udevp closedAcc prev
          = { code := OpenCode.fatalAbort, udevp := some c.handle, closed := closedAcc }) := by
  refine ⟨evalChain_pass_iff d chain hval, ?_, ?_, ?_⟩
  · intro f rest hch hne
    subst hch
    have hf := hval f (List.mem_cons_self f rest)
    rw [evalChain_cons, evalChain_cons]
    rcases hf with h1 | h0 | hm1 | hm2
    · exact absurd h1 hne
    · simp [h0]
    · simp [hm1]
    · simp [hm2]
  · intro f rest hch hm1
    subst hch
    rw [evalChain_cons, hm1]
    norm_num
  · intro hasCb c cs udevp closedAcc prev h1 h2 h3 h4
    exact openEnum_fatal_matcher chain hasCb c cs udevp closedAcc prev h1 h2 h3 h4

/-- Witness for C7: a two-node chain whose second node reports
no-match is not passed. -/
theorem c7_matcher_chain_witness :
    evalChain [fun _ => (1 : Int), fun _ => (0 : Int)] emptyDevice ≠ ChainOutcome.pass := by
  have h := (c7_matcher_chain [fun _ => (1 : Int), fun _ => (0 : Int)] emptyDevice
    (by intro f hf; simp only [List.mem_cons, List.not_mem_nil, or_false] at hf
        rcases hf with rfl | rfl
        · left; rfl
        · right; left; rfl)).1
  intro hpass
  have hall := h.mp hpass
  have := hall (fun _ => (0 : Int)) (by simp)
  norm_num at this

/-- Claim C8: the identity record handed to matching is fully rebuilt
for each candidate: all string fields are freed and the record zeroed
before repopulation, so the populated record, the matcher-chain
verdict on it, and the whole enumeration are independent of whatever
a previously examined candidate left in the record. -/
theorem c8_identity_no_leak (c : Candidate) (prev1 prev2 : USBDevice)
    (chain : List (USBDevice → Int)) :
    populateDevice c prev1 = populateDevice c prev2
    ∧ evalChain chain (populateDevice c prev1) = evalChain chain (populateDevice c prev2)
    ∧ ∀ (hasCb : Bool) (cs : List Candidate) (udevp : Option Nat) (closedAcc : List Nat),
        openEnum chain hasCb cs udevp closedAcc prev1
          = openEnum chain hasCb cs udevp closedAcc prev2 := by
  refine ⟨populateDevice_prev_indep c prev1 prev2, ?_, ?_⟩
  · rw [populateDevice_prev_indep c prev1 prev2]
  · intro hasCb cs udevp closedAcc
    exact openEnum_prev_indep chain hasCb cs udevp closedAcc prev1 prev2

/-- Counterexample to claim C1: the claim states that Method 2 is
attempted only for devices with vendor id 0x463 AND release code
0x0202.  The gate of line 368 skips Method 2 only when BOTH the vendor
id differs from 0x463 and the release code differs from 0x0202: a
device with vendor id 0x09ae (Tripp Lite) and release code 0x0202
attempts Method 2 — here it even obtains a report length from the
extra bytes — although its vendor id is not 0x463. -/
theorem c1_method2_gating_counterexample :
    method2_skipped 0x09ae 0x0202 = false
    ∧ method2_result 0x09ae 0x0202 true [9, 0x21, 0, 0, 0, 0, 0, 100, 0] = some 100
    ∧ (0x09ae : Nat) ≠ 0x463 := by
  refine ⟨by decide, by decide, by decide⟩

/-- Claim C1 (amended): Method 2 is attempted exactly for candidate
devices whose vendor id is 0x463 OR whose release code is 0x0202; it
is skipped only when both the vendor id differs from 0x463 and the
release code differs from 0x0202, and a skipped Method 2 yields no
length. -/
theorem c1_method2_gating (vid bcd : Nat) :
    (method2_skipped vid bcd = false ↔ (vid = 0x463 ∨ bcd = 0x0202))
    ∧ (∀ (confOk : Bool) (extra : List Nat),
        method2_skipped vid bcd = true →
        method2_result vid bcd confOk extra = none) := by
  constructor
  · unfold method2_skipped
    rcases Decidable.em (vid = 0x463) with h1 | h1 <;>
      rcases Decidable.em (bcd = 0x0202) with h2 | h2 <;>
        simp [h1, h2]
  · intro confOk extra h
    unfold method2_result
    rw [if_pos h]

/-- Witness for the amended C1 at a device with neither the special
vendor id nor the special release code: Method 2 yields no length. -/
theorem c1_method2_gating_witness :
    method2_result 0x06da 0x0100 true [9, 0x21, 0, 0, 0, 0, 0, 100, 0] = none :=
  (c1_method2_gating 0x06da 0x0100).2 true [9, 0x21, 0, 0, 0, 0, 0, 100, 0] (by decide)

/-- Claim C2: reconciliation of the two report-descriptor lengths.
When only Method 1 yielded a length, that value is used; when both
methods yielded lengths (even if they differ), Method 2's value is
used; the reconciled value (when within capacity) is exactly the
length requested in the descriptor fetch; when neither method yielded
a length the candidate is rejected and enumeration moves to the next
device, closing the candidate's handle. -/
theorem c2_length_reconciliation :
    (∀ l1, reconcile (some l1) none = some l1)
    ∧ (∀ l1 l2, l1 ≠ l2 → reconcile (some l1) (some l2) = some l2)
    ∧ (∀ (c : Candidate) (rdlen : Nat),
        reconcile (method1_length c.m1ret c.m1buf)
          (method2_result c.idVendor c.bcdDev c.confOk c.extra) = some rdlen →
        ¬ MAX_REPORT_SIZE < rdlen →
        (discoveryStep c).fetchReq = some rdlen)
    ∧ (∀ (chain : List (USBDevice → Int)) (c : Candidate) (rest : List Candidate)
        (udevp : Option Nat) (closedAcc : List Nat) (prev : USBDevice),
        c.descOk = true → c.openOk = true → c.oom = false →
        evalChain chain (populateDevice c prev) = ChainOutcome.pass → c.claimOk = true →
        method1_length c.m1ret c.m1buf = none →
        method2_result c.idVendor c.bcdDev c.confOk c.extra = none →
        openEnum chain true (c :: rest) udevp closedAcc prev
          = openEnum chain true rest (some c.handle) (closedAcc ++ [c.handle])
              (populateDevice c prev)) := by
  refine ⟨fun l1 => rfl, fun l1 l2 _ => rfl, ?_, ?_⟩
  · intro c rdlen hrec hbig
    simp only [discoveryStep, hrec]
    rw [if_neg hbig]
    split <;> rfl
  · intro chain c rest udevp closedAcc prev h1 h2 h3 h4 h5 hm1 hm2
    have h6 : (discoveryStep c).rdlen = none := by
      unfold discoveryStep
      rw [hm1, hm2]
      rfl
    exact openEnum_reject_rdlen_none chain c rest udevp closedAcc prev h1 h2 h3 h4 h5 h6

/-- Witness for C2: both methods yielded lengths 5 and 7; the
reconciled length is Method 2's 7. -/
theorem c2_length_reconciliation_witness : reconcile (some 5) (some 7) = some 7 :=
  c2_length_reconciliation.2.1 5 7 (by decide)

/-- Claim C6: when the reconciled report-descriptor length exceeds
`MAX_REPORT_SIZE` (0x1800 = 6144 bytes), the candidate is rejected
before the descriptor fetch: no fetch is issued, no byte is written
into the report buffer, and enumeration moves to the next device,
closing the candidate's handle. -/
theorem c6_oversize_rejected_before_fetch (c : Candidate) (rdlen : Nat)
    (hrec : reconcile (method1_length c.m1ret c.m1buf)
      (method2_result c.idVendor c.bcdDev c.confOk c.extra) = some rdlen)
    (hbig : MAX_REPORT_SIZE < rdlen) :
    discoveryStep c = { fetchReq := none, rdlen := none, bytesWritten := 0 }
    ∧ ∀ (chain : List (USBDevice → Int)) (rest : List Candidate)
        (udevp : Option Nat) (closedAcc : List Nat) (prev : USBDevice),
        c.descOk = true → c.openOk = true → c.oom = false →
        evalChain chain (populateDevice c prev) = ChainOutcome.pass → c.claimOk = true →
        openEnum chain true (c :: rest) udevp closedAcc prev
          = openEnum chain true rest (some c.handle) (closedAcc ++ [c.handle])
              (populateDevice c prev) := by
  have hds : discoveryStep c = { fetchReq := none, rdlen := none, bytesWritten := 0 } := by
    simp only [discoveryStep, hrec]
    rw [if_pos hbig]
  refine ⟨hds, ?_⟩
  intro chain rest udevp closedAcc prev h1 h2 h3 h4 h5
  exact openEnum_reject_rdlen_none chain c rest udevp closedAcc prev h1 h2 h3 h4 h5
    (by rw [hds])

/-- Witness for C6 at `oversizeCand`: no fetch, no bytes written. -/
theorem c6_oversize_rejected_before_fetch_witness :
    discoveryStep oversizeCand = { fetchReq := none, rdlen := none, bytesWritten := 0 } :=
  (c6_oversize_rejected_before_fetch oversizeCand 6400 (by decide) (by decide)).1

/-- Claim C10: when the scan exhausts the device list without
accepting a candidate, `*udevp` is NULL when the not-found status is
returned, and the handle of every candidate that was opened (and hence
rejected) was closed, in enumeration order, before the next candidate
was examined. -/
theorem c10_notfound_cleanup (chain : List (USBDevice → Int)) (hasCb : Bool)
    (cs : List Candidate) (udevp : Option Nat) (closedAcc : List Nat) (prev : USBDevice)
    (h : (openEnum chain hasCb cs udevp closedAcc prev).code = OpenCode.notFound) :
    (openEnum chain hasCb cs udevp closedAcc prev).udevp = none
    ∧ (openEnum chain hasCb cs udevp closedAcc prev).closed
        = closedAcc ++ (cs.filter (fun c => c.descOk && c.openOk)).map Candidate.handle :=
  openEnum_notFound_shape chain hasCb cs udevp closedAcc prev h

/-- Witness for C10: a one-candidate scan that ends not-found leaves
`*udevp` NULL and has closed the rejected candidate's handle 42. -/
theorem c10_notfound_cleanup_witness :
    (openEnum [] true [rejectedCand] (some 5) [] emptyDevice).udevp = none
    ∧ (openEnum [] true [rejectedCand] (some 5) [] emptyDevice).closed
        = [] ++ ([rejectedCand].filter (fun c => c.descOk && c.openOk)).map Candidate.handle :=
  c10_notfound_cleanup [] true [rejectedCand] (some 5) [] emptyDevice (by decide)

end NutLibusb
